import Mathlib

/-!
Formal model of the mdp markdown previewer (scottbarnes/mdp, src/main.go).

The program has two modes.  In one-shot mode (a non-empty -outfile flag) it
reads the input file, renders it through parseContent and writes the result
to the output path.  In watch mode it starts a file watcher goroutine and an
HTTP server goroutine, opens a browser preview, and then loops forever: each
value received on the unbuffered channel rebuild triggers another call of
serveContent, whose attempt to re-bind the fixed port fails because the
first listener still holds it, after which serveContent sends true on the
unbuffered channel serverUp; that token is received inside the websocket
handler ws, which then sends a build_complete message to its client.

File contents are modelled as lists of byte values.  The external libraries
(goldmark, bluemonday, html/template, exec.LookPath, exec.Command) are pure
collaborators and are passed in as explicit function parameters, so every
definition below is a direct transcription of the control flow of main.go.
-/

/-- Byte sequences: the contents of files and rendered pages. -/
abbrev Bytes := List Nat

/-- The readable file system: os.ReadFile either yields the bytes of the
named file or an error value (whose message main prints on failure). -/
abbrev FS := String → Except String Bytes

/-- The content struct of main.go (lines 91-95): the data handed to the
template.  Body holds the sanitized HTML bytes. -/
structure Content where
  fileName : String
  title : String
  body : Bytes

/-- The external rendering collaborators used by parseContent
(main.go lines 254-302), parametrised by the type of parsed templates.
convert is the goldmark converter built with GFM, emoji, highlighting and
auto heading ids; sanitize is bluemonday.UGCPolicy().SanitizeBytes;
parseDefaultTemplate is template.New("mdp").Parse(defaultTemplate);
parseTemplateFiles is template.ParseFiles(tFname), which reads the template
file from the file system; executeTemplate is t.Execute on a Content. -/
structure RenderEnv (Tmpl : Type) where
  convert : Bytes → Except String Bytes
  sanitize : Bytes → Bytes
  parseDefaultTemplate : Except String Tmpl
  parseTemplateFiles : FS → String → Except String Tmpl
  executeTemplate : Tmpl → Content → Except String Bytes

/-- parseContent (main.go lines 254-302): convert the markdown, sanitize it,
parse the built-in default template, replace it by the user template when
tFname is non-empty (reading that file from the file system), and execute
the template on the Content record.  Each failing step returns its error,
exactly as each `if err != nil` in the source does. -/
def parseContent {Tmpl : Type} (env : RenderEnv Tmpl) (fs : FS) (input : Bytes)
    (inFilename : String) (tFname : String) : Except String Bytes :=
  match env.convert input with
  | Except.error e => Except.error e
  | Except.ok output =>
    let body := env.sanitize output
    match env.parseDefaultTemplate with
    | Except.error e => Except.error e
    | Except.ok t0 =>
      match (if tFname = "" then Except.ok t0 else env.parseTemplateFiles fs tFname) with
      | Except.error e => Except.error e
      | Except.ok t =>
        env.executeTemplate t { fileName := inFilename, title := "Markdown Preview Tool", body := body }

/-- The markdownHandler struct of main.go (lines 97-101). -/
structure MarkdownHandler where
  body : Bytes
  filename : String
  tFname : String

/-- markdownHandler.ServeHTTP (main.go lines 205-216): re-read the watched
file; on a read error return without writing a body (none); re-render with
parseContent; on a render error return without writing a body; otherwise
write the rendered bytes as the response body. -/
def serveHTTP {Tmpl : Type} (env : RenderEnv Tmpl) (fs : FS) (md : MarkdownHandler) :
    Option Bytes :=
  match fs md.filename with
  | Except.error _ => none
  | Except.ok newInput =>
    match parseContent env fs newInput md.filename md.tFname with
    | Except.error _ => none
    | Except.ok newHTMLData => some newHTMLData

/-- saveHTML (main.go lines 304-306): os.WriteFile of the rendered bytes to
the output path, modelled as updating the file map at that path. -/
def saveHTML (fs : FS) (outFname : String) (data : Bytes) : FS :=
  fun p => if p = outFname then Except.ok data else fs p

/-- The websocketEvent struct (main.go lines 103-105); its single field is
serialized by WriteJSON as the JSON object field named type. -/
structure WebsocketEvent where
  type : String
  deriving DecidableEq

/-- The one message the server ever builds (main.go line 233). -/
def buildCompleteEvent : WebsocketEvent := { type := "build_complete" }

/-- Observable actions of the ws handler (main.go lines 218-235) on one
connection.  closeRaw is gorilla Conn.Close, which closes the underlying
network connection without sending or waiting for a close frame;
closeWithStatus is a websocket close frame carrying a status code and a
reason, the operation the client script in defaultTemplate performs with
code 1000 (main.go line 66) but which the server code never performs. -/
inductive WsAction
  | logUpgradeError
  | recvServerUp (up : Bool)
  | sendJSON (msg : WebsocketEvent)
  | closeRaw
  | closeWithStatus (code : Nat) (reason : String)
  deriving DecidableEq

/-- The ws handler (main.go lines 218-235) as the sequence of actions it
performs on one connection: if the upgrade fails it logs and returns; else
it blocks receiving on serverUp, sends the build_complete JSON message when
the received value is true, and on return the deferred c.Close() closes the
connection without a close frame. -/
def wsHandler (upgradeOk : Bool) (up : Bool) : List WsAction :=
  if upgradeOk then
    [WsAction.recvServerUp up]
      ++ (if up then [WsAction.sendJSON buildCompleteEvent] else [])
      ++ [WsAction.closeRaw]
  else
    [WsAction.logUpgradeError]

/-- Recognise a message-send action. -/
def isSendJSON : WsAction → Bool
  | WsAction.sendJSON _ => true
  | _ => false

/-- Recognise a close frame carrying a status code. -/
def isCloseWithStatus : WsAction → Bool
  | WsAction.closeWithStatus _ _ => true
  | _ => false

/-- The close code the client script in defaultTemplate uses when it closes
the socket after receiving build_complete (main.go line 66). -/
def clientCloseCode : Nat := 1000

/-- The human-readable reason the client script passes with that close. -/
def clientCloseReason : String := "Reloading page after receiving build_complete"

/-- The fsnotify Write operation bit (fsnotify v1.6.0: Op is a bit set with
Create, Write, Remove, Rename, Chmod as successive bits; Write is bit 1). -/
def fsnotifyWrite : Nat := 2

/-- The fsnotify Chmod operation bit. -/
def fsnotifyChmod : Nat := 16

/-- An fsnotify Event: a file name and an operation bit set. -/
structure FsEvent where
  name : String
  op : Nat
  deriving DecidableEq

/-- Event.Has (fsnotify v1.6.0): whether the event operation contains all
bits of the queried operation.  For the single-bit Write flag this holds
exactly when the Write bit is set. -/
def FsEvent.hasOp (e : FsEvent) (o : Nat) : Bool := e.op &&& o = o

/-- One delivery to the select loop of the fileWatcher goroutine
(main.go lines 176-193): either a value from watcher.Events or a value from
watcher.Errors, each paired with the channel-open flag ok. -/
inductive PumpInput
  | event (e : FsEvent) (ok : Bool)
  | watchError (msg : String) (ok : Bool)
  deriving DecidableEq

/-- Observable effects of that loop: a blocking send of true on rebuild, or
a log.Println of a watch error. -/
inductive PumpEffect
  | enqueueRebuild
  | logError (msg : String)
  deriving DecidableEq

/-- One iteration of the fileWatcher select loop (main.go lines 178-191):
the effects it performs and whether the loop continues (false means the
goroutine returned because a channel was closed). -/
def pumpStep : PumpInput → List PumpEffect × Bool
  | PumpInput.event e ok =>
    if ok = false then ([], false)
    else if FsEvent.hasOp e fsnotifyWrite then ([PumpEffect.enqueueRebuild], true)
    else ([], true)
  | PumpInput.watchError m ok =>
    if ok = false then ([], false)
    else ([PumpEffect.logError m], true)

/-- The fileWatcher select loop run over a sequence of deliveries, stopping
after the first delivery on a closed channel. -/
def pumpRun : List PumpInput → List PumpEffect
  | [] => []
  | i :: is =>
    match pumpStep i with
    | (effs, false) => effs
    | (effs, true) => effs ++ pumpRun is

/-- The operating system identity consulted by preview (runtime.GOOS). -/
inductive GOOS
  | linux
  | windows
  | darwin
  | other
  deriving DecidableEq

/-- The process-launching collaborators used by preview: exec.LookPath and
running the located command with its parameters. -/
structure ExecEnv where
  lookPath : String → Except String String
  runCmd : String → List String → Except String Unit

/-- preview (main.go lines 308-338): choose the opener executable by OS
(returning an error on an unsupported OS), append the file name to the
parameter list, locate the executable on the PATH, and run it; every
failure is returned as the error value of preview. -/
def preview (goos : GOOS) (ee : ExecEnv) (fname : String) : Except String Unit :=
  match goos with
  | GOOS.other => Except.error "OS not supported"
  | GOOS.linux =>
    match ee.lookPath "xdg-open" with
    | Except.error e => Except.error e
    | Except.ok cPath => ee.runCmd cPath [fname]
  | GOOS.windows =>
    match ee.lookPath "cmd.exe" with
    | Except.error e => Except.error e
    | Except.ok cPath => ee.runCmd cPath ["/C", "start", fname]
  | GOOS.darwin =>
    match ee.lookPath "open" with
    | Except.error e => Except.error e
    | Except.ok cPath => ee.runCmd cPath [fname]

/-- The line run prints on stdout before opening the preview. -/
def listeningMsg : String := "Server listening on http://localhost:5052/content"

/-- The URL run passes to preview (main.go line 156). -/
def contentURL : String := "http://localhost:5052/content"

/-- The usage text flag.Usage prints when no input file is given. -/
def usageMsg : String := "usage"

/-- The outcome of running main and run (main.go lines 113-167) up to the
point where the process either exits or enters the orchestrator loop.
exitCode is some c when the process terminates in the modelled prefix;
watcherStarted and serverStarted record whether the fileWatcher and
serveContent goroutines were launched; previewCalled records the result the
preview call returned, or none when preview was never reached (run discards
this result: line 157 ignores the returned error); loopEntered records
whether control reached the for-range loop over rebuild; outFS is the file
system after any output write. -/
structure ProcResult where
  exitCode : Option Nat
  stderr : List String
  stdout : List String
  watcherStarted : Bool
  serverStarted : Bool
  previewCalled : Option (Except String Unit)
  loopEntered : Bool
  outFS : FS

/-- main plus run (main.go lines 113-167): reject a missing input file with
usage and exit 1; read the input file and render it once, and on either
failure print the error on stderr and exit 1 (main.go lines 126-129) before
any goroutine is started; with a non-empty output path write the rendered
bytes there and return nil, so the process exits 0 without watching or
serving; otherwise start the fileWatcher and serveContent goroutines, print
the listening line, call preview on the content URL discarding its result,
and enter the loop over rebuild. -/
def runProcess {Tmpl : Type} (env : RenderEnv Tmpl) (goos : GOOS) (ee : ExecEnv)
    (fs : FS) (inFilename outFilename tFname : String) : ProcResult :=
  if inFilename = "" then
    { exitCode := some 1, stderr := [usageMsg], stdout := [],
      watcherStarted := false, serverStarted := false, previewCalled := none,
      loopEntered := false, outFS := fs }
  else
    match fs inFilename with
    | Except.error e =>
      { exitCode := some 1, stderr := [e], stdout := [],
        watcherStarted := false, serverStarted := false, previewCalled := none,
        loopEntered := false, outFS := fs }
    | Except.ok input =>
      match parseContent env fs input inFilename tFname with
      | Except.error e =>
        { exitCode := some 1, stderr := [e], stdout := [],
          watcherStarted := false, serverStarted := false, previewCalled := none,
          loopEntered := false, outFS := fs }
      | Except.ok htmlData =>
        if outFilename = "" then
          { exitCode := none, stderr := [], stdout := [listeningMsg],
            watcherStarted := true, serverStarted := true,
            previewCalled := some (preview goos ee contentURL),
            loopEntered := true, outFS := fs }
        else
          { exitCode := some 0, stderr := [], stdout := [],
            watcherStarted := false, serverStarted := false, previewCalled := none,
            loopEntered := false, outFS := saveHTML fs outFilename htmlData }

/-- The watcher-construction collaborators used by fileWatcher:
fsnotify.NewWatcher and watcher.Add. -/
structure WatchEnv (W : Type) where
  newWatcher : Except String W
  addTarget : W → String → Except String Unit

/-- The outcome of fileWatcher initialisation: log.Fatal terminates the
process with a message; otherwise the watch is established and the
goroutine blocks forever. -/
inductive WatcherInit
  | fatalExit (msg : String)
  | watching
  deriving DecidableEq

/-- fileWatcher start-up (main.go lines 169-200): fsnotify.NewWatcher, on
error log.Fatal; watcher.Add of the target file, on error log.Fatal; then
the goroutine blocks on an empty channel forever. -/
def fileWatcherInit {W : Type} (we : WatchEnv W) (file : String) : WatcherInit :=
  match we.newWatcher with
  | Except.error e => WatcherInit.fatalExit e
  | Except.ok w =>
    match we.addTarget w file with
    | Except.error e => WatcherInit.fatalExit e
    | Except.ok _ => WatcherInit.watching

/-- Position of the orchestrator task (main plus the serveContent call it
makes inline) in watch mode.  loopWait is the receive in the for-range loop
over rebuild (main.go line 160); serveBind is inside a serveContent call at
http.ListenAndServe (line 248); sendServerUp is the blocking send on the
unbuffered channel serverUp after ListenAndServe returned (line 249);
listening would be a ListenAndServe call that bound the port and therefore
blocks forever serving. -/
inductive OrchPhase
  | loopWait
  | serveBind
  | sendServerUp
  | listening
  deriving DecidableEq

/-- Position of the fileWatcher event-pump goroutine: idle at the select,
or blocked in the send rebuild := true (main.go line 184). -/
inductive WatchPhase
  | idle
  | sendRebuild
  deriving DecidableEq

/-- State of the watch-mode system after start-up.  pendingEvents counts
write notifications queued by the operating system watch mechanism ahead of
the pump goroutine; portBound records whether the first serving cycle still
holds the fixed port 5052; wsWaiting counts ws handlers blocked at the
receive on serverUp (main.go line 231). -/
structure SysState where
  orch : OrchPhase
  watcher : WatchPhase
  pendingEvents : Nat
  portBound : Bool
  wsWaiting : Nat
  deriving DecidableEq

/-- Start of watch mode: the first serveContent goroutine bound the port and
listens forever, the orchestrator blocks on the rebuild receive, the pump is
at its select, no events or clients yet. -/
def initState : SysState :=
  { orch := OrchPhase.loopWait, watcher := WatchPhase.idle, pendingEvents := 0,
    portBound := true, wsWaiting := 0 }

/-- Transition labels.  userWrite: the user saves the watched file (the OS
queues a write notification).  osDrop: the OS watch queue coalesces or drops
a queued notification (kernel-level behaviour outside the program, named by
the watch-error path of main.go lines 186-190).  pumpTake: the pump takes a
write event from the queue and starts the blocking send on rebuild
(main.go lines 183-184).  rebuildRecv: the rendezvous on the unbuffered
rebuild channel, after which the orchestrator calls serveContent
(main.go lines 160-161).  bindFail: ListenAndServe returns at once with an
address-in-use error because the port is held (line 248).  bindOk:
ListenAndServe binds the free port and blocks serving.  wsConnect: a browser
connects to the websocket endpoint and its handler reaches the serverUp
receive.  notifyClient: the rendezvous on the unbuffered serverUp channel
(lines 249 and 231), after which that handler sends build_complete. -/
inductive Label
  | userWrite
  | osDrop
  | pumpTake
  | rebuildRecv
  | bindFail
  | bindOk
  | wsConnect
  | notifyClient
  deriving DecidableEq

/-- The transition relation of the watch-mode system. -/
inductive Step : Label → SysState → SysState → Prop
  | userWrite (s : SysState) :
      Step Label.userWrite s { s with pendingEvents := s.pendingEvents + 1 }
  | osDrop (s : SysState) (n : Nat) (h : s.pendingEvents = n + 1) :
      Step Label.osDrop s { s with pendingEvents := n }
  | pumpTake (s : SysState) (n : Nat) (h : s.pendingEvents = n + 1)
      (hw : s.watcher = WatchPhase.idle) :
      Step Label.pumpTake s { s with pendingEvents := n, watcher := WatchPhase.sendRebuild }
  | rebuildRecv (s : SysState) (hw : s.watcher = WatchPhase.sendRebuild)
      (ho : s.orch = OrchPhase.loopWait) :
      Step Label.rebuildRecv s { s with watcher := WatchPhase.idle, orch := OrchPhase.serveBind }
  | bindFail (s : SysState) (ho : s.orch = OrchPhase.serveBind) (hp : s.portBound = true) :
      Step Label.bindFail s { s with orch := OrchPhase.sendServerUp }
  | bindOk (s : SysState) (ho : s.orch = OrchPhase.serveBind) (hp : s.portBound = false) :
      Step Label.bindOk s { s with orch := OrchPhase.listening, portBound := true }
  | wsConnect (s : SysState) :
      Step Label.wsConnect s { s with wsWaiting := s.wsWaiting + 1 }
  | notifyClient (s : SysState) (m : Nat) (ho : s.orch = OrchPhase.sendServerUp)
      (hc : s.wsWaiting = m + 1) :
      Step Label.notifyClient s { s with orch := OrchPhase.loopWait, wsWaiting := m }

/-- States reachable from the watch-mode start state. -/
inductive Reachable : SysState → Prop
  | init : Reachable initState
  | step {l : Label} {s s' : SysState} : Reachable s → Step l s s' → Reachable s'

/-- A finite execution from s to s' with its list of labels. -/
inductive Trace : SysState → List Label → SysState → Prop
  | nil (s : SysState) : Trace s [] s
  | cons {l : Label} {s s' s'' : SysState} {ls : List Label} :
      Step l s s' → Trace s' ls s'' → Trace s (l :: ls) s''

/-- Number of occurrences of a label in a trace. -/
def countLabel (l : Label) : List Label → Nat
  | [] => 0
  | x :: xs => (if x = l then 1 else 0) + countLabel l xs

/-- Pending work held in the pump position. -/
def watcherLoad : WatchPhase → Nat
  | WatchPhase.idle => 0
  | WatchPhase.sendRebuild => 1

/-- Pending work held in the orchestrator position. -/
def orchLoad : OrchPhase → Nat
  | OrchPhase.loopWait => 0
  | OrchPhase.serveBind => 1
  | OrchPhase.sendServerUp => 1
  | OrchPhase.listening => 0

/-- Write notifications still in flight towards a build_complete message:
queued events, plus one for a pump blocked in its send, plus one for an
orchestrator inside a rebuild-triggered serving cycle. -/
def pendingWork (s : SysState) : Nat :=
  s.pendingEvents + watcherLoad s.watcher + orchLoad s.orch

/-- A schedule in which two rapid saves collapse into one reload: the OS
queue coalesces the second notification, one rebuild is delivered, the
re-bind fails, a client is connected and is notified once. -/
def coalescedTrace : List Label :=
  [Label.userWrite, Label.userWrite, Label.osDrop, Label.pumpTake, Label.rebuildRecv,
   Label.bindFail, Label.wsConnect, Label.notifyClient]

/-- A concrete rendering environment for evaluating the model: templates are
trivial, conversion and sanitisation are identities, execution yields the
body. -/
def trivialRenderEnv : RenderEnv Unit :=
  { convert := fun b => Except.ok b, sanitize := fun b => b,
    parseDefaultTemplate := Except.ok (),
    parseTemplateFiles := fun _ _ => Except.error "template file missing",
    executeTemplate := fun _ c => Except.ok c.body }

/-- A concrete process-launch environment in which every command exists and
succeeds. -/
def trivialExecEnv : ExecEnv :=
  { lookPath := fun c => Except.ok c, runCmd := fun _ _ => Except.ok () }

/-- A concrete file system holding exactly one file. -/
def fsWith (p : String) (b : Bytes) : FS :=
  fun q => if q = p then Except.ok b else Except.error "file not found"

/-- Claim C10: with an empty template name parseContent reads no external
state: on the same input bytes and file name it returns the same result for
any two file systems, and two content-endpoint responses for identical file
contents are byte-identical. -/
theorem c10_parseContent_deterministic {Tmpl : Type} (env : RenderEnv Tmpl)
    (fs1 fs2 : FS) (input : Bytes) (name : String) :
    parseContent env fs1 input name "" = parseContent env fs2 input name ""
    ∧ (∀ b : Bytes, fs1 name = Except.ok b → fs2 name = Except.ok b →
        serveHTTP env fs1 { body := [], filename := name, tFname := "" }
          = serveHTTP env fs2 { body := [], filename := name, tFname := "" }) := by
  have hgen : ∀ i : Bytes,
      parseContent env fs1 i name "" = parseContent env fs2 i name "" := by
    intro i
    simp [parseContent]
  refine ⟨hgen input, ?_⟩
  intro b h1 h2
  simp only [serveHTTP, h1, h2]
  rw [hgen b]

/-- Witness for C10 at a concrete environment and two file systems that
differ away from the watched file. -/
theorem c10_witness :
    parseContent trivialRenderEnv (fsWith "a.md" [1]) [2] "a.md" ""
      = parseContent trivialRenderEnv (fsWith "b.md" [3]) [2] "a.md" ""
    ∧ serveHTTP trivialRenderEnv (fsWith "a.md" [1])
        { body := [], filename := "a.md", tFname := "" }
      = serveHTTP trivialRenderEnv
        (fun q => if q = "a.md" then Except.ok [1] else Except.ok [7])
        { body := [], filename := "a.md", tFname := "" } :=
  ⟨(c10_parseContent_deterministic trivialRenderEnv (fsWith "a.md" [1])
      (fsWith "b.md" [3]) [2] "a.md").1,
   (c10_parseContent_deterministic trivialRenderEnv (fsWith "a.md" [1])
      (fun q => if q = "a.md" then Except.ok [1] else Except.ok [7]) [2] "a.md").2
     [1] rfl rfl⟩

/-- Claim C2: in one-shot mode (non-empty output path, readable and
renderable source) the process exits 0, and the bytes written at the output
path are exactly the bytes the content endpoint serves for the same source
file, file name and template option: both are parseContent of the file
bytes. -/
theorem c2_oneshot_matches_endpoint {Tmpl : Type} (env : RenderEnv Tmpl) (goos : GOOS)
    (ee : ExecEnv) (fs : FS) (inF outF tF : String) (input html : Bytes)
    (hin : inF ≠ "") (hout : outF ≠ "")
    (hread : fs inF = Except.ok input)
    (hparse : parseContent env fs input inF tF = Except.ok html) :
    (runProcess env goos ee fs inF outF tF).exitCode = some 0
    ∧ (runProcess env goos ee fs inF outF tF).outFS outF = Except.ok html
    ∧ (runProcess env goos ee fs inF outF tF).watcherStarted = false
    ∧ serveHTTP env fs { body := [], filename := inF, tFname := tF } = some html := by
  simp [runProcess, serveHTTP, saveHTML, hin, hout, hread, hparse]

/-- Witness for C2: converting a one-byte file writes exactly the bytes the
endpoint would serve. -/
theorem c2_witness :
    (runProcess trivialRenderEnv GOOS.linux trivialExecEnv (fsWith "in.md" [104])
        "in.md" "out.html" "").exitCode = some 0
    ∧ (runProcess trivialRenderEnv GOOS.linux trivialExecEnv (fsWith "in.md" [104])
        "in.md" "out.html" "").outFS "out.html" = Except.ok [104]
    ∧ (runProcess trivialRenderEnv GOOS.linux trivialExecEnv (fsWith "in.md" [104])
        "in.md" "out.html" "").watcherStarted = false
    ∧ serveHTTP trivialRenderEnv (fsWith "in.md" [104])
        { body := [], filename := "in.md", tFname := "" } = some [104] :=
  c2_oneshot_matches_endpoint trivialRenderEnv GOOS.linux trivialExecEnv
    (fsWith "in.md" [104]) "in.md" "out.html" "" [104] [104]
    (by decide) (by decide) rfl rfl

/-- Claim C5: a read or render failure makes the content endpoint write no
body (and the handler simply returns, so the serving cycle survives), and a
file system on which the file reads and renders again makes the endpoint
serve the rendered page again. -/
theorem c5_endpoint_failure_recovery {Tmpl : Type} (env : RenderEnv Tmpl) (fs fs2 : FS)
    (md : MarkdownHandler) :
    (∀ e, fs md.filename = Except.error e → serveHTTP env fs md = none)
    ∧ (∀ input e, fs md.filename = Except.ok input →
        parseContent env fs input md.filename md.tFname = Except.error e →
        serveHTTP env fs md = none)
    ∧ (∀ input2 b, fs2 md.filename = Except.ok input2 →
        parseContent env fs2 input2 md.filename md.tFname = Except.ok b →
        serveHTTP env fs2 md = some b) := by
  refine ⟨?_, ?_, ?_⟩
  · intro e h
    simp [serveHTTP, h]
  · intro input e h1 h2
    simp [serveHTTP, h1, h2]
  · intro input2 b h1 h2
    simp [serveHTTP, h1, h2]

/-- Witness for C5: a missing file yields no body, a render failure yields
no body, and after the file becomes good again the page is served. -/
theorem c5_witness :
    serveHTTP trivialRenderEnv (fsWith "other" [1])
      { body := [], filename := "a.md", tFname := "" } = none
    ∧ serveHTTP
        ({ convert := fun _ => Except.error "bad markdown",
           sanitize := fun b => b, parseDefaultTemplate := Except.ok (),
           parseTemplateFiles := fun _ _ => Except.error "none",
           executeTemplate := fun _ c => Except.ok c.body } : RenderEnv Unit)
        (fsWith "a.md" [5]) { body := [], filename := "a.md", tFname := "" } = none
    ∧ serveHTTP trivialRenderEnv (fsWith "a.md" [5])
        { body := [], filename := "a.md", tFname := "" } = some [5] :=
  ⟨(c5_endpoint_failure_recovery trivialRenderEnv (fsWith "other" [1])
      (fsWith "other" [1]) { body := [], filename := "a.md", tFname := "" }).1
      "file not found" rfl,
   (c5_endpoint_failure_recovery
      ({ convert := fun _ => Except.error "bad markdown",
         sanitize := fun b => b, parseDefaultTemplate := Except.ok (),
         parseTemplateFiles := fun _ _ => Except.error "none",
         executeTemplate := fun _ c => Except.ok c.body } : RenderEnv Unit)
      (fsWith "a.md" [5]) (fsWith "a.md" [5])
      { body := [], filename := "a.md", tFname := "" }).2.1 [5] "bad markdown" rfl rfl,
   (c5_endpoint_failure_recovery trivialRenderEnv (fsWith "a.md" [5])
      (fsWith "a.md" [5]) { body := [], filename := "a.md", tFname := "" }).2.2
      [5] [5] rfl rfl⟩

/-- Claim C6: an unreadable input file or a failing first render makes the
process exit 1 with the error on stderr before the file watcher or the
server is started; and a failure to construct the filesystem watcher or to
register the watch target terminates the process (log.Fatal). -/
theorem c6_fatal_startup_errors {Tmpl W : Type} (env : RenderEnv Tmpl) (goos : GOOS)
    (ee : ExecEnv) (fs : FS) (inF outF tF : String) (we : WatchEnv W)
    (hin : inF ≠ "") :
    (∀ e, fs inF = Except.error e →
        (runProcess env goos ee fs inF outF tF).exitCode = some 1
        ∧ (runProcess env goos ee fs inF outF tF).stderr = [e]
        ∧ (runProcess env goos ee fs inF outF tF).watcherStarted = false
        ∧ (runProcess env goos ee fs inF outF tF).serverStarted = false
        ∧ (runProcess env goos ee fs inF outF tF).loopEntered = false)
    ∧ (∀ input e, fs inF = Except.ok input →
        parseContent env fs input inF tF = Except.error e →
        (runProcess env goos ee fs inF outF tF).exitCode = some 1
        ∧ (runProcess env goos ee fs inF outF tF).stderr = [e]
        ∧ (runProcess env goos ee fs inF outF tF).watcherStarted = false
        ∧ (runProcess env goos ee fs inF outF tF).serverStarted = false
        ∧ (runProcess env goos ee fs inF outF tF).loopEntered = false)
    ∧ (∀ e, we.newWatcher = Except.error e →
        fileWatcherInit we inF = WatcherInit.fatalExit e)
    ∧ (∀ w e, we.newWatcher = Except.ok w → we.addTarget w inF = Except.error e →
        fileWatcherInit we inF = WatcherInit.fatalExit e) := by
  refine ⟨?_, ?_, ?_, ?_⟩
  · intro e h
    simp [runProcess, hin, h]
  · intro input e h1 h2
    simp [runProcess, hin, h1, h2]
  · intro e h
    simp [fileWatcherInit, h]
  · intro w e h1 h2
    simp [fileWatcherInit, h1, h2]

/-- Witness for C6 at concrete failing environments. -/
theorem c6_witness :
    ((runProcess trivialRenderEnv GOOS.linux trivialExecEnv (fsWith "other" [1])
        "a.md" "" "").exitCode = some 1
      ∧ (runProcess trivialRenderEnv GOOS.linux trivialExecEnv (fsWith "other" [1])
          "a.md" "" "").stderr = ["file not found"]
      ∧ (runProcess trivialRenderEnv GOOS.linux trivialExecEnv (fsWith "other" [1])
          "a.md" "" "").watcherStarted = false
      ∧ (runProcess trivialRenderEnv GOOS.linux trivialExecEnv (fsWith "other" [1])
          "a.md" "" "").serverStarted = false
      ∧ (runProcess trivialRenderEnv GOOS.linux trivialExecEnv (fsWith "other" [1])
          "a.md" "" "").loopEntered = false)
    ∧ fileWatcherInit
        ({ newWatcher := Except.error "inotify exhausted",
           addTarget := fun _ _ => Except.ok () } : WatchEnv Unit)
        "a.md" = WatcherInit.fatalExit "inotify exhausted"
    ∧ fileWatcherInit
        ({ newWatcher := Except.ok (),
           addTarget := fun _ _ => Except.error "no such file" } : WatchEnv Unit)
        "a.md" = WatcherInit.fatalExit "no such file" :=
  ⟨(c6_fatal_startup_errors trivialRenderEnv GOOS.linux trivialExecEnv (fsWith "other" [1])
      "a.md" "" ""
      ({ newWatcher := Except.error "inotify exhausted",
         addTarget := fun _ _ => Except.ok () } : WatchEnv Unit)
      (by decide)).1 "file not found" rfl,
   (c6_fatal_startup_errors trivialRenderEnv GOOS.linux trivialExecEnv (fsWith "other" [1])
      "a.md" "" ""
      ({ newWatcher := Except.error "inotify exhausted",
         addTarget := fun _ _ => Except.ok () } : WatchEnv Unit)
      (by decide)).2.2.1 "inotify exhausted" rfl,
   (c6_fatal_startup_errors trivialRenderEnv GOOS.linux trivialExecEnv (fsWith "other" [1])
      "a.md" "" ""
      ({ newWatcher := Except.ok (),
         addTarget := fun _ _ => Except.error "no such file" } : WatchEnv Unit)
      (by decide)).2.2.2 () "no such file" rfl rfl⟩

/-- Claim C7: the fileWatcher select loop enqueues a RebuildEvent for a
delivered event exactly when the event has the Write flag, ignores other
events, and logs a watch-queue error and keeps processing. -/
theorem c7_pump_write_iff (e : FsEvent) (m : String) (is : List PumpInput) :
    (pumpStep (PumpInput.event e true) = ([PumpEffect.enqueueRebuild], true)
      ↔ FsEvent.hasOp e fsnotifyWrite = true)
    ∧ (FsEvent.hasOp e fsnotifyWrite = false →
        pumpStep (PumpInput.event e true) = ([], true))
    ∧ pumpRun (PumpInput.watchError m true :: is)
        = PumpEffect.logError m :: pumpRun is := by
  refine ⟨?_, ?_, ?_⟩
  · by_cases h : FsEvent.hasOp e fsnotifyWrite = true <;> simp [pumpStep, h]
  · intro h
    simp [pumpStep, h]
  · simp [pumpRun, pumpStep]

/-- Witness for C7: a write event enqueues a rebuild, a chmod-only event is
ignored, and a watch error is logged while a later write is still
processed. -/
theorem c7_witness :
    pumpStep (PumpInput.event { name := "a.md", op := 2 } true)
      = ([PumpEffect.enqueueRebuild], true)
    ∧ pumpStep (PumpInput.event { name := "a.md", op := 16 } true) = ([], true)
    ∧ pumpRun [PumpInput.watchError "queue overflow" true,
        PumpInput.event { name := "a.md", op := 2 } true]
      = [PumpEffect.logError "queue overflow", PumpEffect.enqueueRebuild] :=
  ⟨(c7_pump_write_iff { name := "a.md", op := 2 } "queue overflow" []).1.2 (by decide),
   (c7_pump_write_iff { name := "a.md", op := 16 } "queue overflow" []).2.1 (by decide),
   (c7_pump_write_iff { name := "a.md", op := 2 } "queue overflow"
      [PumpInput.event { name := "a.md", op := 2 } true]).2.2⟩

/-- Counterexample to claim C8 as stated: on an unsupported OS the preview
call fails with the OS-not-supported error, yet the process output contains
no report of it — stderr is empty and stdout holds only the listening
banner — because run discards the value preview returns (main.go line 157).
The loop is still entered. -/
theorem c8_counterexample :
    (runProcess trivialRenderEnv GOOS.other trivialExecEnv (fsWith "in.md" [1])
        "in.md" "" "").previewCalled = some (Except.error "OS not supported")
    ∧ (runProcess trivialRenderEnv GOOS.other trivialExecEnv (fsWith "in.md" [1])
        "in.md" "" "").stderr = []
    ∧ (runProcess trivialRenderEnv GOOS.other trivialExecEnv (fsWith "in.md" [1])
        "in.md" "" "").stdout = [listeningMsg]
    ∧ (runProcess trivialRenderEnv GOOS.other trivialExecEnv (fsWith "in.md" [1])
        "in.md" "" "").loopEntered = true :=
  ⟨rfl, rfl, rfl, rfl⟩

/-- Claim C8 as amended: a failure of the OS browser-launch collaborator
(unsupported OS, executable not found, or a failed launch) is silently
discarded — run ignores the error preview returns and nothing is printed
for it — and it does not affect the watch/serve loop: after a preview
failure the watcher and server goroutines are running and the Orchestrator
still enters its loop over RebuildEvents. -/
theorem c8_preview_failure_ignored {Tmpl : Type} (env : RenderEnv Tmpl) (goos : GOOS)
    (ee : ExecEnv) (fs : FS) (inF tF : String) (input : Bytes) (e : String)
    (hin : inF ≠ "") (hread : fs inF = Except.ok input)
    (hparse : ∃ h, parseContent env fs input inF tF = Except.ok h)
    (hprev : preview goos ee contentURL = Except.error e) :
    (runProcess env goos ee fs inF "" tF).loopEntered = true
    ∧ (runProcess env goos ee fs inF "" tF).watcherStarted = true
    ∧ (runProcess env goos ee fs inF "" tF).serverStarted = true
    ∧ (runProcess env goos ee fs inF "" tF).previewCalled = some (Except.error e)
    ∧ (runProcess env goos ee fs inF "" tF).stderr = [] := by
  obtain ⟨h, hp⟩ := hparse
  simp [runProcess, hin, hread, hp, hprev]

/-- Witness for the amended C8: with no opener executable on the PATH the
preview fails, the failure is not reported, and the loop is entered. -/
theorem c8_witness :
    (runProcess trivialRenderEnv GOOS.linux
        { lookPath := fun _ => Except.error "xdg-open not found in PATH",
          runCmd := fun _ _ => Except.ok () }
        (fsWith "in.md" [1]) "in.md" "" "").loopEntered = true
    ∧ (runProcess trivialRenderEnv GOOS.linux
        { lookPath := fun _ => Except.error "xdg-open not found in PATH",
          runCmd := fun _ _ => Except.ok () }
        (fsWith "in.md" [1]) "in.md" "" "").watcherStarted = true
    ∧ (runProcess trivialRenderEnv GOOS.linux
        { lookPath := fun _ => Except.error "xdg-open not found in PATH",
          runCmd := fun _ _ => Except.ok () }
        (fsWith "in.md" [1]) "in.md" "" "").serverStarted = true
    ∧ (runProcess trivialRenderEnv GOOS.linux
        { lookPath := fun _ => Except.error "xdg-open not found in PATH",
          runCmd := fun _ _ => Except.ok () }
        (fsWith "in.md" [1]) "in.md" "" "").previewCalled
        = some (Except.error "xdg-open not found in PATH")
    ∧ (runProcess trivialRenderEnv GOOS.linux
        { lookPath := fun _ => Except.error "xdg-open not found in PATH",
          runCmd := fun _ _ => Except.ok () }
        (fsWith "in.md" [1]) "in.md" "" "").stderr = [] :=
  c8_preview_failure_ignored trivialRenderEnv GOOS.linux
    { lookPath := fun _ => Except.error "xdg-open not found in PATH",
      runCmd := fun _ _ => Except.ok () }
    (fsWith "in.md" [1]) "in.md" "" [1] "xdg-open not found in PATH"
    (by decide) rfl ⟨[1], rfl⟩ rfl

/-- Counterexample to claim C3 as stated: on the connection where the
server sends build_complete, the action sequence of the ws handler ends in
the raw connection close of the deferred c.Close() and contains no close
frame with a status code, so the server does not close with status 1000 and
a reason (that close is performed by the client script of defaultTemplate,
main.go line 66). -/
theorem c3_counterexample :
    wsHandler true true
      = [WsAction.recvServerUp true, WsAction.sendJSON buildCompleteEvent,
         WsAction.closeRaw]
    ∧ (wsHandler true true).any isCloseWithStatus = false
    ∧ (wsHandler true true).countP isSendJSON = 1 := by
  decide

/-- Claim C3 as amended: on every connection on which the server sends the
build_complete message, it sends exactly that one JSON message with type
field build_complete, sends no second message on the same connection, and
then closes the connection — without sending a close status; the
normal-closure 1000 with a human-readable reason is sent by the client
script embedded in the default template. -/
theorem c3_single_message_then_close (upgradeOk up : Bool) (m : WebsocketEvent)
    (hm : WsAction.sendJSON m ∈ wsHandler upgradeOk up) :
    m = buildCompleteEvent
    ∧ (wsHandler upgradeOk up).countP isSendJSON = 1
    ∧ (wsHandler upgradeOk up).getLast? = some WsAction.closeRaw
    ∧ (wsHandler upgradeOk up).any isCloseWithStatus = false := by
  cases upgradeOk <;> cases up <;>
    simp_all [wsHandler, isSendJSON, isCloseWithStatus]

/-- Witness for the amended C3 on the connection that is actually notified. -/
theorem c3_witness :
    buildCompleteEvent = buildCompleteEvent
    ∧ (wsHandler true true).countP isSendJSON = 1
    ∧ (wsHandler true true).getLast? = some WsAction.closeRaw
    ∧ (wsHandler true true).any isCloseWithStatus = false :=
  c3_single_message_then_close true true buildCompleteEvent (by decide)

/-- Claim C1: in watch mode the first listener holds the port in every
reachable state; every RebuildEvent rendezvous puts the orchestrator into a
fresh serving cycle (a serveContent call at its bind); from any reachable
state that bind cannot succeed, and its failure moves the orchestrator to
the blocking send on serverUp; and consuming that token is exactly the
rendezvous with a waiting ws handler, which then notifies its client. -/
theorem c1_rebuild_cycle_notifies :
    (∀ s, Reachable s → s.portBound = true)
    ∧ (∀ s s', Step Label.rebuildRecv s s' → s'.orch = OrchPhase.serveBind)
    ∧ (∀ s s', Reachable s → ¬ Step Label.bindOk s s')
    ∧ (∀ s s', Step Label.bindFail s s' →
        s.portBound = true ∧ s'.orch = OrchPhase.sendServerUp)
    ∧ (∀ s s', Step Label.notifyClient s s' →
        s.orch = OrchPhase.sendServerUp ∧ 1 ≤ s.wsWaiting
          ∧ s'.orch = OrchPhase.loopWait) := by
  have inv : ∀ s, Reachable s → s.portBound = true := by
    intro s hr
    induction hr with
    | init => rfl
    | step hr hstep ih => cases hstep <;> simp_all
  refine ⟨inv, ?_, ?_, ?_, ?_⟩
  · intro s s' h
    cases h
    rfl
  · intro s s' hr h
    cases h with
    | bindOk s ho hp =>
      have hb := inv s hr
      rw [hp] at hb
      exact Bool.noConfusion hb
  · intro s s' h
    cases h with
    | bindFail s ho hp => exact ⟨hp, rfl⟩
  · intro s s' h
    cases h with
    | notifyClient s m ho hc => exact ⟨ho, by omega, rfl⟩

/-- Witness for C1 along one concrete rebuild cycle. -/
theorem c1_witness :
    initState.portBound = true
    ∧ ({ orch := OrchPhase.serveBind, watcher := WatchPhase.idle, pendingEvents := 0,
         portBound := true, wsWaiting := 0 } : SysState).orch = OrchPhase.serveBind
    ∧ ¬ Step Label.bindOk initState initState
    ∧ (({ orch := OrchPhase.serveBind, watcher := WatchPhase.idle, pendingEvents := 0,
          portBound := true, wsWaiting := 0 } : SysState).portBound = true
        ∧ ({ orch := OrchPhase.sendServerUp, watcher := WatchPhase.idle, pendingEvents := 0,
             portBound := true, wsWaiting := 0 } : SysState).orch = OrchPhase.sendServerUp)
    ∧ (({ orch := OrchPhase.sendServerUp, watcher := WatchPhase.idle, pendingEvents := 0,
          portBound := true, wsWaiting := 1 } : SysState).orch = OrchPhase.sendServerUp
        ∧ 1 ≤ ({ orch := OrchPhase.sendServerUp, watcher := WatchPhase.idle, pendingEvents := 0,
                 portBound := true, wsWaiting := 1 } : SysState).wsWaiting
        ∧ ({ orch := OrchPhase.loopWait, watcher := WatchPhase.idle, pendingEvents := 0,
             portBound := true, wsWaiting := 0 } : SysState).orch = OrchPhase.loopWait) := by
  have hrecv : Step Label.rebuildRecv
      ({ orch := OrchPhase.loopWait, watcher := WatchPhase.sendRebuild, pendingEvents := 0,
         portBound := true, wsWaiting := 0 } : SysState)
      ({ orch := OrchPhase.serveBind, watcher := WatchPhase.idle, pendingEvents := 0,
         portBound := true, wsWaiting := 0 } : SysState) :=
    Step.rebuildRecv _ rfl rfl
  have hbind : Step Label.bindFail
      ({ orch := OrchPhase.serveBind, watcher := WatchPhase.idle, pendingEvents := 0,
         portBound := true, wsWaiting := 0 } : SysState)
      ({ orch := OrchPhase.sendServerUp, watcher := WatchPhase.idle, pendingEvents := 0,
         portBound := true, wsWaiting := 0 } : SysState) :=
    Step.bindFail _ rfl rfl
  have hnotify : Step Label.notifyClient
      ({ orch := OrchPhase.sendServerUp, watcher := WatchPhase.idle, pendingEvents := 0,
         portBound := true, wsWaiting := 1 } : SysState)
      ({ orch := OrchPhase.loopWait, watcher := WatchPhase.idle, pendingEvents := 0,
         portBound := true, wsWaiting := 0 } : SysState) :=
    Step.notifyClient _ 0 rfl rfl
  exact ⟨c1_rebuild_cycle_notifies.1 initState Reachable.init,
    c1_rebuild_cycle_notifies.2.1 _ _ hrecv,
    c1_rebuild_cycle_notifies.2.2.1 initState initState Reachable.init,
    c1_rebuild_cycle_notifies.2.2.2.1 _ _ hbind,
    c1_rebuild_cycle_notifies.2.2.2.2 _ _ hnotify⟩

/-- Claim C9: serverUp is an unbuffered rendezvous received only inside a
ws handler, so while the orchestrator is blocked in the send of serverUp no
RebuildEvent rendezvous is possible, and along any execution in which no
websocket client connects the orchestrator stays blocked there and neither
a rebuild receipt nor a client notification occurs. -/
theorem c9_no_client_blocks_orchestrator :
    (∀ s s', s.orch = OrchPhase.sendServerUp → ¬ Step Label.rebuildRecv s s')
    ∧ (∀ s ls s', Trace s ls s' → s.orch = OrchPhase.sendServerUp →
        s.wsWaiting = 0 → Label.wsConnect ∉ ls →
        s'.orch = OrchPhase.sendServerUp ∧ Label.rebuildRecv ∉ ls
          ∧ Label.notifyClient ∉ ls) := by
  constructor
  · intro s s' ho h
    cases h with
    | rebuildRecv s hw ho2 =>
      rw [ho] at ho2
      exact OrchPhase.noConfusion ho2
  · intro s ls s' ht
    induction ht with
    | nil s =>
      intro ho _ _
      exact ⟨ho, by simp, by simp⟩
    | cons hstep htail ih =>
      intro ho hw hnc
      rw [List.mem_cons, not_or] at hnc
      obtain ⟨hl, hls⟩ := hnc
      cases hstep with
      | userWrite s =>
        obtain ⟨h1, h2, h3⟩ := ih ho hw hls
        exact ⟨h1, by simp [h2], by simp [h3]⟩
      | osDrop s n h =>
        obtain ⟨h1, h2, h3⟩ := ih ho hw hls
        exact ⟨h1, by simp [h2], by simp [h3]⟩
      | pumpTake s n h hwi =>
        obtain ⟨h1, h2, h3⟩ := ih ho hw hls
        exact ⟨h1, by simp [h2], by simp [h3]⟩
      | rebuildRecv s hwr ho2 =>
        rw [ho] at ho2
        exact OrchPhase.noConfusion ho2
      | bindFail s ho2 hp =>
        rw [ho] at ho2
        exact OrchPhase.noConfusion ho2
      | bindOk s ho2 hp =>
        rw [ho] at ho2
        exact OrchPhase.noConfusion ho2
      | wsConnect s =>
        exact absurd rfl hl
      | notifyClient s m ho2 hc =>
        rw [hw] at hc
        exact Nat.noConfusion hc

/-- Witness for C9: from a state blocked in the serverUp send with no
client, a write by the user leaves the orchestrator blocked and delivers no
rebuild and no notification. -/
theorem c9_witness :
    ¬ Step Label.rebuildRecv
        ({ orch := OrchPhase.sendServerUp, watcher := WatchPhase.idle, pendingEvents := 0,
           portBound := true, wsWaiting := 0 } : SysState) initState
    ∧ (({ orch := OrchPhase.sendServerUp, watcher := WatchPhase.idle, pendingEvents := 1,
          portBound := true, wsWaiting := 0 } : SysState).orch = OrchPhase.sendServerUp
        ∧ Label.rebuildRecv ∉ [Label.userWrite]
        ∧ Label.notifyClient ∉ [Label.userWrite]) := by
  have htr : Trace
      ({ orch := OrchPhase.sendServerUp, watcher := WatchPhase.idle, pendingEvents := 0,
         portBound := true, wsWaiting := 0 } : SysState)
      [Label.userWrite]
      ({ orch := OrchPhase.sendServerUp, watcher := WatchPhase.idle, pendingEvents := 1,
         portBound := true, wsWaiting := 0 } : SysState) :=
    Trace.cons (Step.userWrite _) (Trace.nil _)
  exact ⟨c9_no_client_blocks_orchestrator.1 _ initState rfl,
    c9_no_client_blocks_orchestrator.2 _ _ _ htr rfl rfl (by decide)⟩

/-- Each step adds at most as much to the notifyClient count as to the
userWrite count, measured against the pending work in the state: write
notifications queued, a pump blocked in its send, and an orchestrator
inside a rebuild-triggered serving cycle. -/
theorem trace_notify_le_write_aux : ∀ {s : SysState} {ls : List Label} {s' : SysState},
    Trace s ls s' →
    countLabel Label.notifyClient ls + pendingWork s'
      ≤ countLabel Label.userWrite ls + pendingWork s := by
  intro s ls s' ht
  induction ht with
  | nil s => simp [countLabel]
  | cons hstep htail ih =>
    cases hstep with
    | userWrite s =>
      simp [countLabel, pendingWork, watcherLoad, orchLoad] at ih ⊢
      omega
    | osDrop s n h =>
      simp [countLabel, pendingWork, watcherLoad, orchLoad, h] at ih ⊢
      omega
    | pumpTake s n h hw =>
      simp [countLabel, pendingWork, watcherLoad, orchLoad, h, hw] at ih ⊢
      omega
    | rebuildRecv s hw ho =>
      simp [countLabel, pendingWork, watcherLoad, orchLoad, hw, ho] at ih ⊢
      omega
    | bindFail s ho hp =>
      simp [countLabel, pendingWork, watcherLoad, orchLoad, ho] at ih ⊢
      omega
    | bindOk s ho hp =>
      simp [countLabel, pendingWork, watcherLoad, orchLoad, ho] at ih ⊢
      omega
    | wsConnect s =>
      simp [countLabel, pendingWork, watcherLoad, orchLoad] at ih ⊢
      omega
    | notifyClient s m ho hc =>
      simp [countLabel, pendingWork, watcherLoad, orchLoad, ho] at ih ⊢
      omega

/-- Claim C4: the rebuild signal carries no count, so along every execution
from start-up the number of client notifications (build_complete messages)
is at most the number of user writes, and there is an execution in which
two rapid writes collapse into a single reload. -/
theorem c4_notifications_le_writes :
    (∀ ls s', Trace initState ls s' →
        countLabel Label.notifyClient ls ≤ countLabel Label.userWrite ls)
    ∧ (Trace initState coalescedTrace initState
        ∧ countLabel Label.userWrite coalescedTrace = 2
        ∧ countLabel Label.notifyClient coalescedTrace = 1) := by
  constructor
  · intro ls s' ht
    have h := trace_notify_le_write_aux ht
    have h0 : pendingWork initState = 0 := rfl
    omega
  · refine ⟨?_, by decide, by decide⟩
    show Trace initState
      [Label.userWrite, Label.userWrite, Label.osDrop, Label.pumpTake, Label.rebuildRecv,
       Label.bindFail, Label.wsConnect, Label.notifyClient] initState
    have h1 : Step Label.userWrite initState
        ({ orch := OrchPhase.loopWait, watcher := WatchPhase.idle, pendingEvents := 1,
           portBound := true, wsWaiting := 0 } : SysState) :=
      Step.userWrite _
    have h2 : Step Label.userWrite
        ({ orch := OrchPhase.loopWait, watcher := WatchPhase.idle, pendingEvents := 1,
           portBound := true, wsWaiting := 0 } : SysState)
        ({ orch := OrchPhase.loopWait, watcher := WatchPhase.idle, pendingEvents := 2,
           portBound := true, wsWaiting := 0 } : SysState) :=
      Step.userWrite _
    have h3 : Step Label.osDrop
        ({ orch := OrchPhase.loopWait, watcher := WatchPhase.idle, pendingEvents := 2,
           portBound := true, wsWaiting := 0 } : SysState)
        ({ orch := OrchPhase.loopWait, watcher := WatchPhase.idle, pendingEvents := 1,
           portBound := true, wsWaiting := 0 } : SysState) :=
      Step.osDrop _ 1 rfl
    have h4 : Step Label.pumpTake
        ({ orch := OrchPhase.loopWait, watcher := WatchPhase.idle, pendingEvents := 1,
           portBound := true, wsWaiting := 0 } : SysState)
        ({ orch := OrchPhase.loopWait, watcher := WatchPhase.sendRebuild, pendingEvents := 0,
           portBound := true, wsWaiting := 0 } : SysState) :=
      Step.pumpTake _ 0 rfl rfl
    have h5 : Step Label.rebuildRecv
        ({ orch := OrchPhase.loopWait, watcher := WatchPhase.sendRebuild, pendingEvents := 0,
           portBound := true, wsWaiting := 0 } : SysState)
        ({ orch := OrchPhase.serveBind, watcher := WatchPhase.idle, pendingEvents := 0,
           portBound := true, wsWaiting := 0 } : SysState) :=
      Step.rebuildRecv _ rfl rfl
    have h6 : Step Label.bindFail
        ({ orch := OrchPhase.serveBind, watcher := WatchPhase.idle, pendingEvents := 0,
           portBound := true, wsWaiting := 0 } : SysState)
        ({ orch := OrchPhase.sendServerUp, watcher := WatchPhase.idle, pendingEvents := 0,
           portBound := true, wsWaiting := 0 } : SysState) :=
      Step.bindFail _ rfl rfl
    have h7 : Step Label.wsConnect
        ({ orch := OrchPhase.sendServerUp, watcher := WatchPhase.idle, pendingEvents := 0,
           portBound := true, wsWaiting := 0 } : SysState)
        ({ orch := OrchPhase.sendServerUp, watcher := WatchPhase.idle, pendingEvents := 0,
           portBound := true, wsWaiting := 1 } : SysState) :=
      Step.wsConnect _
    have h8 : Step Label.notifyClient
        ({ orch := OrchPhase.sendServerUp, watcher := WatchPhase.idle, pendingEvents := 0,
           portBound := true, wsWaiting := 1 } : SysState) initState :=
      Step.notifyClient _ 0 rfl rfl
    exact Trace.cons h1 (Trace.cons h2 (Trace.cons h3 (Trace.cons h4 (Trace.cons h5
      (Trace.cons h6 (Trace.cons h7 (Trace.cons h8 (Trace.nil _))))))))

/-- Witness for C4 on the concrete coalescing execution. -/
theorem c4_witness :
    countLabel Label.notifyClient coalescedTrace
      ≤ countLabel Label.userWrite coalescedTrace :=
  c4_notifications_le_writes.1 coalescedTrace initState
    c4_notifications_le_writes.2.1
